import Mathlib

/-
Shallow embedding of the pyson-js library (src/index.js), a line-oriented
"name:type:value" serialization format, together with theorems settling the
specification's claims against the code.

JavaScript semantics that the embedding makes explicit:
- `String.prototype.split(sep, limit)` TRUNCATES its result to the first
  `limit` fields (the remainder of the string is discarded, it is not glued
  into the last field).
- Destructuring with `const [a, b, c] = arr` binds missing positions to
  `undefined`, and any later assignment to such a `const` binding throws a
  runtime `TypeError: Assignment to constant variable.`.
- Accessing a property of `undefined` (e.g. `undefined.split`) throws a
  `TypeError`.
- A string primitive has no `join` method, so `"(*)".join(xs)` throws a
  `TypeError` (the Python idiom `"sep".join(xs)` does not exist in JS).
- An instance field assigned in a constructor (`this.name = name`) shadows a
  prototype method of the same name, so a later call `nv.name()` attempts to
  call a string value and throws a `TypeError`.
Thrown exceptions are modelled with `Except`; `JsError.error` is a
`throw new Error(msg)` written in the source, `JsError.typeError` is a
`TypeError` raised by the JS runtime itself.
-/

namespace PysonJS

/-- A JavaScript number (an IEEE-754 double). Finite doubles are modelled by
their exact rational value (every finite double is a rational, and the
mapping is injective); the three non-finite doubles are separate
constructors. -/
inductive JSNumber where
  | finite (q : ℚ)
  | nan
  | posInf
  | negInf
deriving DecidableEq

/-- `Number.isInteger(n)`: true exactly for finite doubles whose value is a
mathematical integer; false on `NaN`, `Infinity` and `-Infinity`. -/
def jsIsInteger : JSNumber → Bool
  | .finite q => q.den == 1
  | .nan => false
  | .posInf => false
  | .negInf => false

/-- JS stringification of a number, as used inside template literals.
`NaN`/`Infinity`/`-Infinity` print their names and an integral double prints
its decimal integer numeral. JS prints a non-integral double as its shortest
round-tripping decimal; no theorem below depends on that rendering, and it is
abstracted here as "num/den". -/
def JSNumber.render : JSNumber → String
  | .finite q => if q.den == 1 then toString q.num else toString q.num ++ "/" ++ toString q.den
  | .nan => "NaN"
  | .posInf => "Infinity"
  | .negInf => "-Infinity"

/-- A primitive (non-array) JavaScript value, used as an array element. The
source inspects array elements only through `typeof item !== "string"`, and
neither the spec nor the claims involve nested arrays, so array elements are
modelled as primitives. -/
inductive JSPrim where
  | num (n : JSNumber)
  | str (s : String)
  | boolean (b : Bool)
  | nullV
  | undef
deriving DecidableEq

/-- The shape `typeof item === "string"` tests on an array element. -/
def JSPrim.isString : JSPrim → Bool
  | .str _ => true
  | _ => false

/-- JS stringification of a primitive, as used by `Array.prototype.toString`
and template literals. -/
def JSPrim.render : JSPrim → String
  | .num n => n.render
  | .str s => s
  | .boolean b => cond b "true" "false"
  | .nullV => "null"
  | .undef => "undefined"

/-- A JavaScript value as passed to the pyson `Value` constructor: a number,
a string, an array, or anything else (booleans, null, undefined). -/
inductive JSValue where
  | num (n : JSNumber)
  | str (s : String)
  | arr (items : List JSPrim)
  | boolean (b : Bool)
  | nullV
  | undef
deriving DecidableEq

/-- The result of the JS `typeof` operator on a `JSValue` (arrays and `null`
are both `"object"`). -/
def JSValue.typeofStr : JSValue → String
  | .num _ => "number"
  | .str _ => "string"
  | .arr _ => "object"
  | .boolean _ => "boolean"
  | .nullV => "object"
  | .undef => "undefined"

/-- JS stringification of a value inside a template literal: `String(v)`.
An array stringifies as its elements joined with ",". -/
def JSValue.render : JSValue → String
  | .num n => n.render
  | .str s => s
  | .arr items => String.intercalate "," (items.map JSPrim.render)
  | .boolean b => cond b "true" "false"
  | .nullV => "null"
  | .undef => "undefined"

/-- A thrown JS exception: `error` is a `throw new Error(msg)` written in the
source, `typeError` a `TypeError` raised by the JS runtime. -/
inductive JsError where
  | error (msg : String)
  | typeError (msg : String)
deriving DecidableEq

instance exceptDecEq {ε α : Type} [DecidableEq ε] [DecidableEq α] :
    DecidableEq (Except ε α) := fun x y =>
  match x, y with
  | .ok a, .ok b =>
      if h : a = b then .isTrue (by rw [h]) else .isFalse (fun he => by cases he; exact h rfl)
  | .error a, .error b =>
      if h : a = b then .isTrue (by rw [h]) else .isFalse (fun he => by cases he; exact h rfl)
  | .ok _, .error _ => .isFalse (fun he => by cases he)
  | .error _, .ok _ => .isFalse (fun he => by cases he)

/-- Split a character list at every occurrence of the separator character.
Always returns at least one (possibly empty) field, matching JS
`split`, for which `""` splits to `[""]`. -/
def splitOnChar (sep : Char) : List Char → List (List Char)
  | [] => [[]]
  | c :: rest =>
      match splitOnChar sep rest with
      | [] => []
      | field :: fields =>
          if c = sep then [] :: field :: fields else (c :: field) :: fields

/-- `s.split(sep)` / `s.split(sep, limit)` for a single-character separator
(the source only ever splits on `":"` and `"\n"` on its live paths). A JS
`limit` argument truncates the result to the first `limit` fields. -/
def jsSplitChar (s : String) (sep : Char) (limit : Option Nat) : List String :=
  let fields := (splitOnChar sep s.data).map String.mk
  match limit with
  | none => fields
  | some n => fields.take n

/-- `s.includes("\n")` for a one-character needle is containment of that
character. -/
def jsIncludes (s : String) (needle : Char) : Bool :=
  s.data.contains needle

/-- The four wire-format type tags of the `Type` class. A constructed `Type`
instance always carries one of the four valid tags, so it is embedded as this
closed enumeration. -/
inductive PysonType where
  | int
  | float
  | str
  | list
deriving DecidableEq

/-- `Type.prototype.toString`: the canonical lowercase tag. -/
def PysonType.toWire : PysonType → String
  | .int => "int"
  | .float => "float"
  | .str => "str"
  | .list => "list"

/-- The `Type` constructor (`new Type(tag)`): validates the tag string and
throws on anything outside the four keywords. (Named `PysonType.new` because
`Type` is a Lean keyword.) -/
def PysonType.new (tag : String) : Except JsError PysonType :=
  if tag = "int" then .ok .int
  else if tag = "float" then .ok .float
  else if tag = "str" then .ok .str
  else if tag = "list" then .ok .list
  else .error (.error ("Invalid type: " ++ tag))

/-- An instance of the `Value` class: the `type` field (a `Type` instance)
and the `value` field (the raw JS payload stored unchanged by the
constructor). -/
structure Value where
  type : PysonType
  value : JSValue
deriving DecidableEq

/-- The `Value` constructor (`new Value(value)`), lines 18-33 of src/index.js:
a number classifies by `Number.isInteger` into `int` or `float`; a string is
`str`; an array is `list` provided every element is a string (else it
throws); every other payload shape throws with the result of `typeof`. -/
def Value.new (value : JSValue) : Except JsError Value :=
  match value with
  | .num n => .ok ⟨if jsIsInteger n then .int else .float, .num n⟩
  | .str s => .ok ⟨.str, .str s⟩
  | .arr items =>
      if items.any (fun item => !item.isString) then
        .error (.error "Lists in pyson must contain only strings")
      else .ok ⟨.list, .arr items⟩
  | other => .error (.error ("Invalid pyson type: " ++ other.typeofStr))

/-- `Value.prototype.typeStr`: `this.type.toString()`. (The `type()` and
`value()` prototype methods themselves are shadowed by the constructor's
same-named instance fields and are uncallable; the predicates below read the
`type` field directly, as the source does.) -/
def Value.typeStr (v : Value) : String :=
  v.type.toWire

/-- `Value.prototype.isInt`: `this.type.type === "int"`. -/
def Value.isInt (v : Value) : Bool :=
  v.type.toWire == "int"

/-- `Value.prototype.isFloat`: `this.type.type === "float"`. -/
def Value.isFloat (v : Value) : Bool :=
  v.type.toWire == "float"

/-- `Value.prototype.isStr`: `this.type.type === "str"`. -/
def Value.isStr (v : Value) : Bool :=
  v.type.toWire == "str"

/-- `Value.prototype.isList`: `this.type.type === "list"`. -/
def Value.isList (v : Value) : Bool :=
  v.type.toWire == "list"

/-- `Value.prototype.pysonStr`, lines 55-59 of src/index.js:
for an array payload the source evaluates `` `(*)`.join(this.value) ``, but a
JS string primitive has no `join` method, so this throws a `TypeError`
(`"sep".join(xs)` is a Python idiom); for every other payload it is the
template literal `` `${this.type}:${this.value}` ``. -/
def Value.pysonStr (v : Value) : Except JsError String :=
  match v.value with
  | .arr _ => .error (.typeError "\x22(*)\x22.join is not a function")
  | payload => .ok (v.type.toWire ++ ":" ++ payload.render)

/-- A JS value at a position where the source tests `instanceof Value`:
either an instance of the `Value` class or any other JS value. -/
inductive JsAny where
  | value (v : Value)
  | raw (v : JSValue)
deriving DecidableEq

/-- An instance of the `NamedValue` class. After construction the `value`
field holds a `Value` instance, but `swapValue` stores its argument without
validation, so the field can hold an arbitrary JS value. -/
structure NamedValue where
  name : String
  value : JsAny
deriving DecidableEq

/-- The `NamedValue` constructor: throws unless `name` is a string (always
true here, the model types it so) and `value` is `instanceof Value`. -/
def NamedValue.new (name : String) (value : JsAny) : Except JsError NamedValue :=
  match value with
  | .value _ => .ok ⟨name, value⟩
  | .raw _ => .error (.error "Invalid arguments for NamedValue")

/-- `NamedValue.prototype.changeName`: in-place rename, no validation, no
return value. -/
def NamedValue.changeName (nv : NamedValue) (newName : String) : NamedValue :=
  ⟨newName, nv.value⟩

/-- `NamedValue.prototype.swapName`: rename, returning the previous name. -/
def NamedValue.swapName (nv : NamedValue) (newName : String) : String × NamedValue :=
  (nv.name, ⟨newName, nv.value⟩)

/-- `NamedValue.prototype.changeValue`, lines 113-118 of src/index.js: throws
unless the argument is `instanceof Value`, otherwise replaces the stored
value. -/
def NamedValue.changeValue (nv : NamedValue) (newValue : JsAny) : Except JsError NamedValue :=
  match newValue with
  | .value _ => .ok ⟨nv.name, newValue⟩
  | .raw _ => .error (.error "Invalid argument for changeValue")

/-- `NamedValue.prototype.swapValue`, lines 120-124 of src/index.js: stores
the argument and returns the previous value. Unlike `changeValue` it performs
NO `instanceof Value` check, so it accepts any argument. -/
def NamedValue.swapValue (nv : NamedValue) (newValue : JsAny) : JsAny × NamedValue :=
  (nv.value, ⟨nv.name, newValue⟩)

/-- `NamedValue.prototype.toTuple`: `[this.name, this.value]`. -/
def NamedValue.toTuple (nv : NamedValue) : String × JsAny :=
  (nv.name, nv.value)

/-- `NamedValue.prototype.pysonStr`: the template literal
`` `${this.name}:${this.value}` ``. When the stored value is a `Value`
instance its `toString` (= `pysonStr`) runs and any exception it throws
propagates out of the template literal. -/
def NamedValue.pysonStr (nv : NamedValue) : Except JsError String :=
  match nv.value with
  | .value v => (v.pysonStr).map (fun s => nv.name ++ ":" ++ s)
  | .raw r => .ok (nv.name ++ ":" ++ r.render)

/-- `parsePysonEntry(entry)`, lines 143-162 of src/index.js. After the
newline check, the source runs `const [name, type, value] = entry.split(":", 2)`:
the split is truncated to TWO fields, so `value` is always bound to
`undefined` (and `name`, bound to the first field, is never used again on any
live path). The switch on `type` then:
- `"int"` / `"float"`: evaluates `parseInt(value, 10)` / `parseFloat(value)`
  (giving `NaN`, no throw) and then assigns to the `const` binding `value`,
  which throws `TypeError: Assignment to constant variable.`;
- `"list"`: evaluates `value.split("(*)")` with `value === undefined`, which
  throws a `TypeError` before any assignment;
- any other tag, including `"str"` (the switch has no `"str"` case) and the
  `undefined` from a line with fewer than two colons: throws
  `Error("Invalid pyson type: " + type)`.
Consequently the function throws on EVERY input and never reaches the
`new NamedValue(name, new Value(value))` on line 161. -/
def parsePysonEntry (entry : String) : Except JsError NamedValue :=
  if jsIncludes entry '\n' then
    .error (.error "Pyson entries cannot contain newlines")
  else
    match (jsSplitChar entry ':' (some 2)).get? 1 with
    | some "int" => .error (.typeError "Assignment to constant variable.")
    | some "float" => .error (.typeError "Assignment to constant variable.")
    | some "list" => .error (.typeError "Cannot read properties of undefined (reading 'split')")
    | some tag => .error (.error ("Invalid pyson type: " ++ tag))
    | none => .error (.error "Invalid pyson type: undefined")

/-- `pysonToList(data)`, lines 164-173 of src/index.js: split on newlines,
drop falsy (empty) lines, parse each line with `parsePysonEntry` (the first
exception propagates), then run the duplicate-name check
`new Set(list.map((nv) => nv.name())).size !== list.length`. On a non-empty
parsed list the callback `nv.name()` calls the string stored in the `name`
instance field (which shadows the `name()` prototype method) and throws a
`TypeError`; on an empty list the callback never runs and the check passes
(`0 !== 0` is false). -/
def pysonToList (data : String) : Except JsError (List NamedValue) := do
  let list ← ((jsSplitChar data '\n' none).filter (fun line => !line.data.isEmpty)).mapM
    parsePysonEntry
  match list with
  | [] => pure []
  | _ :: _ => .error (.typeError "nv.name is not a function")

/-- `isValidPysonEntry(entry)`, lines 204-211 of src/index.js: true iff
`parsePysonEntry` does not throw. -/
def isValidPysonEntry (entry : String) : Bool :=
  match parsePysonEntry entry with
  | .ok _ => true
  | .error _ => false

/-- `isValidPyson(data)`, lines 213-217 of src/index.js: every
newline-separated line is either the empty string or a valid entry. -/
def isValidPyson (data : String) : Bool :=
  (jsSplitChar data '\n' none).all (fun line => line.data.isEmpty || isValidPysonEntry line)

/-- The rational 11/2, the exact value of the IEEE double `5.5`. Written with
an explicit constructor so that it evaluates by kernel reduction. -/
def elevenHalves : ℚ := ⟨11, 2, by decide, by decide⟩

/-- C1: the spec claims that `parse_entry(encode(nv))` succeeds and returns
`nv` for every valid NamedValue without newlines or `(*)` in its content. The
code violates this: the NamedValue `("a", Str "hello")` encodes to the line
`"a:str:hello"`, and `parsePysonEntry` rejects that very line with
`Error("Invalid pyson type: str")`, because the `split(":", 2)` truncation
drops the value field and the switch has no `"str"` case. -/
theorem c1_roundtrip_fails_on_code :
    Value.new (.str "hello") = .ok ⟨.str, .str "hello"⟩ ∧
    NamedValue.new "a" (.value ⟨.str, .str "hello"⟩) = .ok ⟨"a", .value ⟨.str, .str "hello"⟩⟩ ∧
    NamedValue.pysonStr ⟨"a", .value ⟨.str, .str "hello"⟩⟩ = .ok "a:str:hello" ∧
    parsePysonEntry "a:str:hello" = .error (.error "Invalid pyson type: str") := by
  decide

/-- C2: the spec claims the line is split into three fields on the first two
colons, with later colons kept inside `raw_value`, and that fewer than three
fields yields `MalformedEntry`. The code instead calls `split(":", 2)`, which
in JS truncates to TWO fields, so the `raw_value` binding is always
`undefined`; and a line with no colons is not reported as malformed but falls
through the switch to `Error("Invalid pyson type: undefined")`. -/
theorem c2_split_truncation_no_malformed :
    jsSplitChar "a:str:x:y" ':' (some 2) = ["a", "str"] ∧
    parsePysonEntry "a:str:x:y" = .error (.error "Invalid pyson type: str") ∧
    parsePysonEntry "noColonsHere" = .error (.error "Invalid pyson type: undefined") := by
  decide

/-- C3: the spec claims a `str`-tagged line parses to a `Str` holding the raw
value verbatim. The code's switch has no `"str"` case, so every `str`-tagged
line falls into the default branch and throws
`Error("Invalid pyson type: str")`. -/
theorem c3_str_tag_rejected :
    parsePysonEntry "k:str:v" = .error (.error "Invalid pyson type: str") := by
  decide

/-- C4: the spec claims the bare encoding of `List(["x","y","z"])` is
`"x(*)y(*)z"`. The code evaluates `` `(*)`.join(this.value) `` — the Python
join idiom — and a JS string primitive has no `join` method, so
`Value.pysonStr` on every list value throws a `TypeError` instead of
producing the joined form. -/
theorem c4_list_encoding_throws :
    Value.new (.arr [.str "x", .str "y", .str "z"]) =
      .ok ⟨.list, .arr [.str "x", .str "y", .str "z"]⟩ ∧
    Value.pysonStr ⟨.list, .arr [.str "x", .str "y", .str "z"]⟩ =
      .error (.typeError "\x22(*)\x22.join is not a function") := by
  decide

/-- C5: the spec claims `parse_document("a:int:1\nb:int:2")` succeeds with
two entries and `parse_document("a:int:1\na:int:2")` fails with
`DuplicateName`. In the code, `pysonToList` propagates the `TypeError` thrown
by `parsePysonEntry` on the very first line of either document (assignment to
the `const` binding `value`), so the first document does not succeed and the
second fails with the wrong error; only the empty document parses. -/
theorem c5_document_parse_throws :
    pysonToList "" = .ok [] ∧
    pysonToList "a:int:1\nb:int:2" = .error (.typeError "Assignment to constant variable.") ∧
    pysonToList "a:int:1\na:int:2" = .error (.typeError "Assignment to constant variable.") := by
  decide

/-- C6: the spec claims `is_valid_document("a:int:1\na:int:2")` returns true
(each line being syntactically valid). In the code `parsePysonEntry` throws
on every input, so `isValidPysonEntry` is false on each of these lines and
`isValidPyson` returns false on the document, not true. -/
theorem c6_validator_rejects_valid_lines :
    isValidPysonEntry "a:int:1" = false ∧
    isValidPyson "a:int:1\na:int:2" = false := by
  decide

/-- C7: the spec claims `parse_entry("a:int:notanumber")` fails with
`InvalidNumber`. The code does fail on this line, but with the runtime
`TypeError` from assigning to the `const` binding `value` — there is no
numeral validation anywhere in the code (`parseInt` failure would merely
yield `NaN`, which the `Value` constructor would classify as a float). -/
theorem c7_invalid_number_not_raised :
    parsePysonEntry "a:int:notanumber" =
      .error (.typeError "Assignment to constant variable.") := by
  decide

/-- C8: Value construction classifies its payload by shape: an integral
number (the JS literals `5` and `5.0` denote the same double, the model's
`finite 5`) yields `Int` — in general every input with `Number.isInteger`
true yields `Int`, never `Float`; the non-integral `5.5` yields `Float`; a
string yields `Str`; an all-string array yields `List`; and an array with a
non-string element throws. -/
theorem c8_value_classification :
    (∀ n : JSNumber, jsIsInteger n = true → Value.new (.num n) = .ok ⟨.int, .num n⟩) ∧
    jsIsInteger (.finite 5) = true ∧
    Value.new (.num (.finite 5)) = .ok ⟨.int, .num (.finite 5)⟩ ∧
    Value.new (.num (.finite elevenHalves)) = .ok ⟨.float, .num (.finite elevenHalves)⟩ ∧
    Value.new (.str "x") = .ok ⟨.str, .str "x"⟩ ∧
    Value.new (.arr [.str "p", .str "q"]) = .ok ⟨.list, .arr [.str "p", .str "q"]⟩ ∧
    Value.new (.arr [.str "p", .num (.finite 1)]) =
      .error (.error "Lists in pyson must contain only strings") := by
  refine ⟨?_, by decide, by decide, by decide, by decide, by decide, by decide⟩
  intro n h
  simp [Value.new, h]

/-- Witness for C8: the classification theorem applied at the concrete
integral input `5`. -/
theorem c8_value_classification_witness :
    jsIsInteger (.finite 5) = true ∧
    Value.new (.num (.finite 5)) = .ok ⟨.int, .num (.finite 5)⟩ :=
  ⟨by decide, c8_value_classification.1 (.finite 5) (by decide)⟩

/-- C9 counterexample: the claim says `swapValue` applies the same
validation as `changeValue`, failing with `InvalidArgument` on a non-Value
argument and leaving the NamedValue unchanged. On the concrete NamedValue
`("a", Int 1)` and the raw string argument `"oops"` (not a Value instance),
`swapValue` does not fail: it stores the invalid argument and returns the old
value, while `changeValue` does reject the same argument. -/
theorem c9_swap_accepts_invalid :
    NamedValue.swapValue ⟨"a", .value ⟨.int, .num (.finite 1)⟩⟩ (.raw (.str "oops")) =
      (.value ⟨.int, .num (.finite 1)⟩, ⟨"a", .raw (.str "oops")⟩) ∧
    NamedValue.changeValue ⟨"a", .value ⟨.int, .num (.finite 1)⟩⟩ (.raw (.str "oops")) =
      .error (.error "Invalid argument for changeValue") := by
  decide

/-- C9 amended: `swapValue` performs no validation at all — for every
NamedValue and every argument (Value instance or not) it replaces the stored
value with the argument and returns the previous one — whereas `changeValue`
fails with the InvalidArgument error exactly on non-Value arguments. -/
theorem c9_swap_no_validation :
    (∀ (nv : NamedValue) (x : JsAny),
        NamedValue.swapValue nv x = (nv.value, ⟨nv.name, x⟩)) ∧
    (∀ (nv : NamedValue) (r : JSValue),
        NamedValue.changeValue nv (.raw r) =
          .error (.error "Invalid argument for changeValue")) ∧
    (∀ (nv : NamedValue) (v : Value),
        NamedValue.changeValue nv (.value v) = .ok ⟨nv.name, .value v⟩) :=
  ⟨fun _ _ => rfl, fun _ _ => rfl, fun _ _ => rfl⟩

/-- C10: every number for which `Number.isInteger` is false — including the
non-finite values `NaN`, `Infinity` and `-Infinity` — is accepted by the
Value constructor and classified as a float: construction succeeds with type
tag `float`, `isFloat` returns true and `typeStr` returns `"float"`. -/
theorem c10_nonintegral_numbers_are_float :
    jsIsInteger .nan = false ∧ jsIsInteger .posInf = false ∧ jsIsInteger .negInf = false ∧
    ∀ n : JSNumber, jsIsInteger n = false →
      Value.new (.num n) = .ok ⟨.float, .num n⟩ ∧
      Value.isFloat ⟨.float, .num n⟩ = true ∧
      Value.typeStr ⟨.float, .num n⟩ = "float" := by
  refine ⟨rfl, rfl, rfl, ?_⟩
  intro n h
  refine ⟨?_, rfl, rfl⟩
  simp [Value.new, h]

/-- Witness for C10: the theorem applied at the concrete non-finite input
`NaN`. -/
theorem c10_nonintegral_numbers_are_float_witness :
    Value.new (.num .nan) = .ok ⟨.float, .num .nan⟩ ∧
    Value.isFloat ⟨.float, .num .nan⟩ = true ∧
    Value.typeStr ⟨.float, .num .nan⟩ = "float" :=
  c10_nonintegral_numbers_are_float.2.2.2 .nan (by decide)

end PysonJS
